import Mathlib

/-!
Verification development for the deno-sqlite-orm repository.

The TypeScript sources (src/src/orm.ts, src/src/builder.ts, src/src/errors.ts,
the JSON value codec json.ts, and the schema-snapshot module) are shallowly
embedded below.  JavaScript runtime values are modelled by the inductive
`JVal`; JavaScript numbers are modelled by `Rat` (exact for the whole-number
values the theorems evaluate; floating-point rounding is not modelled).
Fallible code returns `Except`.
-/

namespace DenoSqliteOrm

/-- Column types, from `type ColumnType` in src/src/orm.ts. -/
inductive ColumnType
  | string
  | number
  | boolean
  | json
  | integer
  | blob
deriving DecidableEq, Repr

/-- JavaScript runtime values as far as the ORM manipulates them:
`null`, `undefined`, booleans, numbers (as `Rat`), strings, arrays,
plain objects (ordered field lists), `Map` instances (ordered entry lists)
and `Uint8Array` byte buffers. -/
inductive JVal
  | null
  | undef
  | bool (b : Bool)
  | num (q : Rat)
  | str (s : String)
  | arr (xs : List JVal)
  | obj (fields : List (String × JVal))
  | map (entries : List (JVal × JVal))
  | u8 (bytes : List Nat)
deriving Repr

/-- JavaScript `typeof`. -/
def typeOf : JVal → String
  | .null => "object"
  | .undef => "undefined"
  | .bool _ => "boolean"
  | .num _ => "number"
  | .str _ => "string"
  | .arr _ => "object"
  | .obj _ => "object"
  | .map _ => "object"
  | .u8 _ => "object"

/-- JavaScript loose `x == null`, true exactly for `null` and `undefined`. -/
def jsEqNull : JVal → Bool
  | .null => true
  | .undef => true
  | _ => false

/-- JavaScript truthiness. -/
def jsTruthy : JVal → Bool
  | .null => false
  | .undef => false
  | .bool b => b
  | .num q => !(q == 0)
  | .str s => !(s == "")
  | .arr _ => true
  | .obj _ => true
  | .map _ => true
  | .u8 _ => true

/-- JavaScript `Number.isInteger` (false on every non-number). -/
def isIntegerJs : JVal → Bool
  | .num q => q.den == 1
  | _ => false

/-- Rendering of a number by JavaScript `String(...)`; exact for whole
numbers, which are the only numbers the concrete theorems evaluate. -/
def numToString (q : Rat) : String :=
  if q.den == 1 then toString q.num else toString q

/-- First field of an object with the given key (JavaScript property lookup:
`none` plays the role of `undefined`). -/
def lookupField (fields : List (String × JVal)) (key : String) : Option JVal :=
  match fields with
  | [] => none
  | (k, v) :: rest => if k == key then some v else lookupField rest key

mutual

/-- JavaScript `String(value)` string coercion on the modelled domain
(arrays join their elements with commas, objects give `[object Object]`). -/
def jsToString : JVal → String
  | .null => "null"
  | .undef => "undefined"
  | .bool b => if b then "true" else "false"
  | .num q => numToString q
  | .str s => s
  | .arr xs => String.intercalate "," (jsToStrList xs)
  | .obj _ => "[object Object]"
  | .map _ => "[object Map]"
  | .u8 bs => String.intercalate "," (bs.map (fun b => toString b))

/-- Elementwise coercion used by `Array.prototype.join`: `null` and
`undefined` render as the empty string. -/
def jsToStrList : List JVal → List String
  | [] => []
  | x :: xs =>
    (match x with
     | .null => ""
     | .undef => ""
     | v => jsToString v) :: jsToStrList xs

end

mutual

/-- JavaScript `JSON.stringify` on the modelled domain (string escaping is
not modelled; the values rendered by the theorems contain none). -/
def jsonStringify : JVal → String
  | .null => "null"
  | .undef => "null"
  | .bool b => if b then "true" else "false"
  | .num q => numToString q
  | .str s => "\"" ++ s ++ "\""
  | .arr xs => "[" ++ String.intercalate "," (jsonStrList xs) ++ "]"
  | .obj fs => "\x7b" ++ String.intercalate "," (jsonStrFields fs) ++ "\x7d"
  | .map _ => "\x7b\x7d"
  | .u8 bs =>
    "\x7b" ++
      String.intercalate ","
        ((bs.enum).map (fun p => "\"" ++ toString p.1 ++ "\":" ++ toString p.2)) ++
    "\x7d"

def jsonStrList : List JVal → List String
  | [] => []
  | x :: xs => jsonStringify x :: jsonStrList xs

def jsonStrFields : List (String × JVal) → List String
  | [] => []
  | (k, v) :: fs => ("\"" ++ k ++ "\":" ++ jsonStringify v) :: jsonStrFields fs

end

/-- Error classes from src/src/errors.ts, plus `jsError` for plain
JavaScript `Error`/`TypeError` values thrown by code outside that hierarchy. -/
inductive DBError
  | notFound (msg : String)
  | invalidTable (msg : String)
  | invalidData (msg : String)
  | jsError (msg : String)
deriving DecidableEq, Repr

/-! ## Value codec, encode direction (json.ts: `writeValue` / `jsonify`)

The process-wide `serializableClasses` registry is empty here (no
`registerJsonSerializabe` call occurs in the repository sources), so the
registered-custom-class branches of `writeValue`/`readValue` never match;
`JVal` accordingly has no class-instance constructor. -/

/-- json.ts `isSerializabe`: everything except `bigint`, `function` and
`symbol` values; those three runtime kinds have no `JVal` constructor, so on
this domain the predicate is always true, but it is kept in the recursion to
mirror the source. -/
def isSerializabe (v : JVal) : Bool :=
  !(typeOf v == "bigint") && !(typeOf v == "function") && !(typeOf v == "symbol")

/-- JavaScript `Object.entries` for the non-array values `jsonify`/`dejsonify`
can receive: plain objects give their field list, `Map` instances have no own
enumerable properties, and typed arrays enumerate their indices. -/
def entriesOf : JVal → List (String × JVal)
  | .obj fs => fs
  | .map _ => []
  | .u8 bs => (bs.enum).map (fun p => (toString p.1, JVal.num p.2))
  | .arr xs => (xs.enum).map (fun p => (toString p.1, p.2))
  | _ => []

mutual

/-- json.ts `writeValue`.  The `'object'` branch calls `jsonify(val)` on the
same value; those calls are unfolded here into the matching list helper so
that the recursion is structural:
* `val instanceof Map` → `{data: jsonify([...val.entries()]), type: 'Map'}`,
  with `jsonify` of the entry array unfolded as `writeEntries`;
* `val instanceof Array` → `jsonify(val)`, unfolded as `writeList`;
* `val instanceof Uint8Array` → `{data: 'base64', type: 'U8IntArray'}`
  (the source marks both `data` and its decoding with `// fixme`);
* otherwise (empty class registry) → `{data: jsonify(val), type: 'unknown'}`,
  with `jsonify` of the plain object unfolded as `writeFields`.
`writeValue(null)` reaches `jsonify(null)` whose `Object.entries(null)`
raises a `TypeError`; `writeValue(undefined)` hits the `default` throw. -/
def writeValue : JVal → Except String JVal
  | .bool b => .ok (.bool b)
  | .num q => .ok (.num q)
  | .str s => .ok (.str s)
  | .map es =>
    match writeEntries es with
    | .error e => .error e
    | .ok ds => .ok (.obj [("data", .arr ds), ("type", .str "Map")])
  | .arr xs =>
    match writeList xs with
    | .error e => .error e
    | .ok ys => .ok (.arr ys)
  | .u8 _ => .ok (.obj [("data", .str "base64"), ("type", .str "U8IntArray")])
  | .obj fs =>
    match writeFields [] fs with
    | .error e => .error e
    | .ok gs => .ok (.obj [("data", .obj gs), ("type", .str "unknown")])
  | .null => .error "TypeError: Cannot convert undefined or null to object"
  | .undef => .error "Cannot write object of type undefined"

/-- Array branch of json.ts `jsonify`: encode elements in order, skipping
unserializable ones. -/
def writeList : List JVal → Except String (List JVal)
  | [] => .ok []
  | x :: xs =>
    if isSerializabe x then
      match writeValue x with
      | .error e => .error e
      | .ok y =>
        match writeList xs with
        | .error e => .error e
        | .ok ys => .ok (y :: ys)
    else writeList xs

/-- Object branch of json.ts `jsonify`: encode `Object.entries` field-wise,
skipping unserializable values and keys listed in `ignoredProps`. -/
def writeFields (ignoredProps : List String) :
    List (String × JVal) → Except String (List (String × JVal))
  | [] => .ok []
  | (k, v) :: fs =>
    if isSerializabe v then
      if k ∈ ignoredProps then writeFields ignoredProps fs
      else
        match writeValue v with
        | .error e => .error e
        | .ok w =>
          match writeFields ignoredProps fs with
          | .error e => .error e
          | .ok gs => .ok ((k, w) :: gs)
    else writeFields ignoredProps fs

/-- `jsonify([...val.entries()])` unfolded: each entry is the 2-element array
`[k, v]`, and `jsonify` of that array encodes both components. -/
def writeEntries : List (JVal × JVal) → Except String (List JVal)
  | [] => .ok []
  | (k, v) :: es =>
    match writeValue k with
    | .error e => .error e
    | .ok a =>
      match writeValue v with
      | .error e => .error e
      | .ok b =>
        match writeEntries es with
        | .error e => .error e
        | .ok ds => .ok (.arr [a, b] :: ds)

end

/-- json.ts `jsonify(obj, ignoredProps)`: arrays map element-wise, everything
else goes through `Object.entries` (which raises a `TypeError` on `null` and
`undefined`). -/
def jsonify (ignoredProps : List String) (v : JVal) : Except String JVal :=
  match v with
  | .arr xs =>
    match writeList xs with
    | .error e => .error e
    | .ok ys => .ok (.arr ys)
  | .null => .error "TypeError: Cannot convert undefined or null to object"
  | .undef => .error "TypeError: Cannot convert undefined or null to object"
  | w =>
    match writeFields ignoredProps (entriesOf w) with
    | .error e => .error e
    | .ok gs => .ok (.obj gs)

/-! ## Value codec, decode direction (json.ts: `readValue` / `dejsonify`)

The decode functions take an explicit fuel argument purely so that the
recursion (which goes through property lookups such as `val.data`) is
visibly terminating; every theorem below evaluates them with ample fuel and
never hits the out-of-fuel branch. -/

/-- Entry extraction performed by the JavaScript `Map` constructor on an
iterable: each element must be array-like; index `0` is the key and index
`1` the value (absent indices read as `undefined`), and a primitive element
raises a `TypeError`. -/
def mapEntriesOfJs : List JVal → Except String (List (JVal × JVal))
  | [] => .ok []
  | e :: es =>
    match e with
    | .arr l =>
      match mapEntriesOfJs es with
      | .error err => .error err
      | .ok rest => .ok ((l.getD 0 .undef, l.getD 1 .undef) :: rest)
    | .obj fs =>
      match mapEntriesOfJs es with
      | .error err => .error err
      | .ok rest =>
        .ok (((lookupField fs "0").getD .undef, (lookupField fs "1").getD .undef) :: rest)
    | _ => .error "TypeError: Iterator value is not an entry object"

/-- `new Map(x)` for the values this code path produces (`dejsonify` of an
array literal always yields an array). -/
def newMapFrom : JVal → Except String JVal
  | .arr es =>
    match mapEntriesOfJs es with
    | .error err => .error err
    | .ok entries => .ok (.map entries)
  | _ => .error "TypeError: object is not iterable"

mutual

/-- json.ts `readValue`.  Scalars pass through; arrays recurse through
`dejsonify`; objects dispatch on their `type` property:
`'Map'` → `new Map(dejsonify([val.data]))` (note the extra array wrapped
around `val.data` in the source), `'U8IntArray'` → `[]` (source comment:
`// fixme parse base64`), `'custom-…'` → registry lookup (empty registry
here, so control falls through to the final checks), `'unknown'` →
`dejsonify(val.data)`, anything else throws.  A missing or non-string
`type` property makes `val.type.startsWith` raise a `TypeError`, and
`Map`/`Uint8Array` instances (whose `type` property is `undefined`) behave
the same way. -/
def readValueF : Nat → JVal → Except String JVal
  | 0, _ => .error "out of fuel"
  | _ + 1, .bool b => .ok (.bool b)
  | _ + 1, .num q => .ok (.num q)
  | _ + 1, .str s => .ok (.str s)
  | fuel + 1, .arr xs =>
    match readListF fuel xs with
    | .error e => .error e
    | .ok ys => .ok (.arr ys)
  | _ + 1, .null => .error "TypeError: Cannot read properties of null (reading type)"
  | _ + 1, .undef => .error "Cannot read object of type undefined"
  | _ + 1, .map _ =>
    .error "TypeError: Cannot read properties of undefined (reading startsWith)"
  | _ + 1, .u8 _ =>
    .error "TypeError: Cannot read properties of undefined (reading startsWith)"
  | fuel + 1, .obj fs =>
    match lookupField fs "type" with
    | some (.str t) =>
      if t == "Map" then
        match dejsonifyF fuel (.arr [(lookupField fs "data").getD .undef]) with
        | .error e => .error e
        | .ok lst => newMapFrom lst
      else if t == "U8IntArray" then .ok (.arr [])
      else if t.startsWith "custom-" then
        -- empty registry: the lookup misses, control reaches the final throw
        .error ("Unknown object type: " ++ t)
      else if t == "unknown" then dejsonifyF fuel ((lookupField fs "data").getD .undef)
      else .error ("Unknown object type: " ++ t)
    | some _ => .error "TypeError: val.type.startsWith is not a function"
    | none => .error "TypeError: Cannot read properties of undefined (reading startsWith)"

/-- Array branch of json.ts `dejsonify`: decode elements in order. -/
def readListF : Nat → List JVal → Except String (List JVal)
  | 0, _ => .error "out of fuel"
  | _ + 1, [] => .ok []
  | fuel + 1, x :: xs =>
    match readValueF fuel x with
    | .error e => .error e
    | .ok y =>
      match readListF fuel xs with
      | .error e => .error e
      | .ok ys => .ok (y :: ys)

/-- Object branch of json.ts `dejsonify`: decode `Object.entries` field-wise. -/
def readFieldsF : Nat → List (String × JVal) → Except String (List (String × JVal))
  | 0, _ => .error "out of fuel"
  | _ + 1, [] => .ok []
  | fuel + 1, (k, v) :: fs =>
    match readValueF fuel v with
    | .error e => .error e
    | .ok w =>
      match readFieldsF fuel fs with
      | .error e => .error e
      | .ok gs => .ok ((k, w) :: gs)

/-- json.ts `dejsonify(jsonObj)`: arrays map element-wise, everything else
goes through `Object.entries` (a `TypeError` on `null`/`undefined`). -/
def dejsonifyF : Nat → JVal → Except String JVal
  | 0, _ => .error "out of fuel"
  | fuel + 1, .arr xs =>
    match readListF fuel xs with
    | .error e => .error e
    | .ok ys => .ok (.arr ys)
  | _ + 1, .null => .error "TypeError: Cannot convert undefined or null to object"
  | _ + 1, .undef => .error "TypeError: Cannot convert undefined or null to object"
  | fuel + 1, w =>
    match readFieldsF fuel (entriesOf w) with
    | .error e => .error e
    | .ok gs => .ok (.obj gs)

end

/-! ## `JSON.parse` model

A small recursive-descent parser sufficient for the JSON texts this mapper
produces (string escape sequences beyond a quoted character are simplified;
no theorem below depends on the parser's internals). -/

def quoteC : Char := Char.ofNat 34
def bslashC : Char := Char.ofNat 92
def lbraceC : Char := Char.ofNat 123
def rbraceC : Char := Char.ofNat 125

def skipWsChars : List Char → List Char
  | [] => []
  | c :: cs => if c == ' ' || c == '\n' || c == '\t' || c == '\r' then skipWsChars cs else c :: cs

def digitsToNat (ds : List Char) : Nat :=
  ds.foldl (fun n c => 10 * n + (c.toNat - 48)) 0

def parseNumber (cs : List Char) : Except String (JVal × List Char) :=
  let state : Bool × List Char :=
    match cs with
    | c :: rest => if c == '-' then (true, rest) else (false, cs)
    | [] => (false, [])
  let neg := state.1
  let intDigits := state.2.span Char.isDigit
  if intDigits.1.isEmpty then .error "invalid number"
  else
    let ip : Rat := (digitsToNat intDigits.1 : Nat)
    match intDigits.2 with
    | c :: rest =>
      if c == '.' then
        let fracDigits := rest.span Char.isDigit
        if fracDigits.1.isEmpty then .error "invalid number"
        else
          let fr : Rat := (digitsToNat fracDigits.1 : Nat) / ((10 : Rat) ^ fracDigits.1.length)
          .ok (.num (if neg then -(ip + fr) else ip + fr), fracDigits.2)
      else .ok (.num (if neg then -ip else ip), intDigits.2)
    | [] => .ok (.num (if neg then -ip else ip), [])

def parseStrBody : List Char → Except String (List Char × List Char)
  | [] => .error "unterminated string"
  | c :: cs =>
    if c == quoteC then .ok ([], cs)
    else if c == bslashC then
      match cs with
      | [] => .error "unterminated string"
      | d :: rest =>
        match parseStrBody rest with
        | .error e => .error e
        | .ok (body, after) =>
          let ch := if d == 'n' then '\n' else if d == 't' then '\t' else d
          .ok (ch :: body, after)
    else
      match parseStrBody cs with
      | .error e => .error e
      | .ok (body, after) => .ok (c :: body, after)

def dropLit (lit : List Char) (cs : List Char) : Option (List Char) :=
  match lit, cs with
  | [], rest => some rest
  | l :: ls, c :: rest => if c == l then dropLit ls rest else none
  | _ :: _, [] => none

mutual

def parseValue : Nat → List Char → Except String (JVal × List Char)
  | 0, _ => .error "out of fuel"
  | fuel + 1, cs =>
    match skipWsChars cs with
    | [] => .error "unexpected end of JSON input"
    | c :: rest =>
      if c == quoteC then
        match parseStrBody rest with
        | .error e => .error e
        | .ok (body, after) => .ok (.str (String.mk body), after)
      else if c == lbraceC then
        match parseObjRest fuel rest with
        | .error e => .error e
        | .ok (fs, after) => .ok (.obj fs, after)
      else if c == '[' then
        match parseArrayRest fuel rest with
        | .error e => .error e
        | .ok (vs, after) => .ok (.arr vs, after)
      else if c == 't' then
        match dropLit ['r', 'u', 'e'] rest with
        | some after => .ok (.bool true, after)
        | none => .error "invalid literal"
      else if c == 'f' then
        match dropLit ['a', 'l', 's', 'e'] rest with
        | some after => .ok (.bool false, after)
        | none => .error "invalid literal"
      else if c == 'n' then
        match dropLit ['u', 'l', 'l'] rest with
        | some after => .ok (.null, after)
        | none => .error "invalid literal"
      else if c == '-' || c.isDigit then parseNumber (c :: rest)
      else .error "unexpected token"

def parseArrayRest : Nat → List Char → Except String (List JVal × List Char)
  | 0, _ => .error "out of fuel"
  | fuel + 1, cs =>
    match skipWsChars cs with
    | [] => .error "unexpected end of JSON input"
    | c :: rest =>
      if c == ']' then .ok ([], rest)
      else
        match parseValue fuel (c :: rest) with
        | .error e => .error e
        | .ok (v, cs2) =>
          match skipWsChars cs2 with
          | [] => .error "unexpected end of JSON input"
          | c2 :: rest2 =>
            if c2 == ',' then
              match parseArrayRest fuel rest2 with
              | .error e => .error e
              | .ok (vs, after) => .ok (v :: vs, after)
            else if c2 == ']' then .ok ([v], rest2)
            else .error "expected comma or bracket"

def parseObjRest : Nat → List Char → Except String (List (String × JVal) × List Char)
  | 0, _ => .error "out of fuel"
  | fuel + 1, cs =>
    match skipWsChars cs with
    | [] => .error "unexpected end of JSON input"
    | c :: rest =>
      if c == rbraceC then .ok ([], rest)
      else if c == quoteC then
        match parseStrBody rest with
        | .error e => .error e
        | .ok (key, cs2) =>
          match skipWsChars cs2 with
          | [] => .error "unexpected end of JSON input"
          | c2 :: rest2 =>
            if c2 == ':' then
              match parseValue fuel rest2 with
              | .error e => .error e
              | .ok (v, cs3) =>
                match skipWsChars cs3 with
                | [] => .error "unexpected end of JSON input"
                | c3 :: rest3 =>
                  if c3 == ',' then
                    match parseObjRest fuel rest3 with
                    | .error e => .error e
                    | .ok (fs, after) => .ok ((String.mk key, v) :: fs, after)
                  else if c3 == rbraceC then .ok ([(String.mk key, v)], rest3)
                  else .error "expected comma or brace"
            else .error "expected colon"
      else .error "expected string key"

end

def jsonParse (fuel : Nat) (s : String) : Except String JVal :=
  match parseValue fuel s.data with
  | .error e => .error e
  | .ok (v, rest) =>
    match skipWsChars rest with
    | [] => .ok v
    | _ => .error "unexpected trailing characters"

/-! ## Type-direction serializers (src/src/orm.ts: `serialize` / `deseralize`) -/

/-- src/src/orm.ts `SqliteOrm.serialize` (lines 401-432), reproduced branch
for branch.  Note the `integer` guard is the source's
`typeof data !== 'number' || Number.isInteger(data)` verbatim. -/
def serialize (data : JVal) (type : ColumnType) : Except DBError JVal :=
  if jsEqNull data then .ok .null
  else
    match type with
    | .boolean =>
      if !(typeOf data == "boolean") then
        .error (.invalidData "Cannot store a non boolean type on a boolean column")
      else .ok (.num (if jsTruthy data then 1 else 0))
    | .string =>
      if !(typeOf data == "string") then
        .error (.invalidData "Cannot store a non string type on a string column")
      else .ok data
    | .number =>
      if !(typeOf data == "number") then
        .error (.invalidData "Cannot store a non number type on a number column")
      else .ok data
    | .integer =>
      if !(typeOf data == "number") || isIntegerJs data then
        .error (.invalidData "Cannot store a non integer type on an integer column")
      else .ok data
    | .blob =>
      match data with
      | .u8 bs => .ok (.u8 bs)
      | _ => .error (.invalidData "Cannot store a blob/u8int[] type on a blob column")
    | .json =>
      if !(typeOf data == "object") then
        .error (.invalidData "Cannot convert non object type into JSON")
      else
        match jsonify [] data with
        | .error e => .error (.jsError e)
        | .ok encoded => .ok (.str (jsonStringify encoded))

/-- src/src/orm.ts `SqliteOrm.deseralize` (lines 434-467).  The fuel feeds
the JSON parser and decoder and is never exhausted in the theorems below. -/
def deseralize (fuel : Nat) (data : JVal) (type : ColumnType) : Except DBError JVal :=
  if jsEqNull data then .ok .null
  else
    match type with
    | .boolean =>
      if !(typeOf data == "number") && !(isIntegerJs data) then
        .error (.invalidData ("Column contains " ++ jsToString data ++ " instead of a boolean"))
      else
        -- `return data === 1 ? true : false`; the guard leaves only numbers here
        .ok (.bool (match data with | .num q => q == 1 | _ => false))
    | .string =>
      if !(typeOf data == "string") then
        .error (.invalidData ("Column contains " ++ jsToString data ++ " instead of a string"))
      else .ok data
    | .number =>
      if !(typeOf data == "number") then
        .error (.invalidData ("Column contains " ++ jsToString data ++ " instead of a number"))
      else .ok data
    | .integer =>
      if !(typeOf data == "number") && !(isIntegerJs data) then
        .error (.invalidData ("Column contains " ++ jsToString data ++ " instead of an integer"))
      else .ok data
    | .blob =>
      match data with
      | .u8 bs => .ok (.u8 bs)
      | _ => .error (.invalidData ("Column contains " ++ typeOf data ++ " instead of a blob"))
    | .json =>
      match data with
      | .str s =>
        match jsonParse fuel s with
        | .error _ => .error (.invalidData "Column contains invalid JSON data")
        | .ok parsed =>
          match dejsonifyF fuel parsed with
          | .error _ => .error (.invalidData "Column contains invalid JSON data")
          | .ok v => .ok v
      | _ =>
        .error (.invalidData ("Column contains " ++ typeOf data ++ " instead of a JSON string"))

/-! ## Schema model (src/src/orm.ts `TableColumn`, `Model`) -/

structure TableColumn where
  type : ColumnType
  name : String
  mappedTo : Option String
  nullable : Bool
  defaultValue : JVal
  isPrimaryKey : Bool
  autoIncrement : Bool
deriving Repr

structure Model where
  tableName : String
  columns : List TableColumn
deriving Repr

/-- The single-quote character used by the builder around identifiers and
string literals. -/
def sq : String := String.singleton (Char.ofNat 39)

/-! ## Query builder (src/src/builder.ts) -/

/-- src/src/builder.ts `getSqlType`; the `default` branch (reached for the
`number` column type, which the switch does not mention) throws. -/
def getSqlType : ColumnType → Except String String
  | .boolean => .ok "INTEGER"
  | .integer => .ok "INTEGER"
  | .json => .ok "TEXT"
  | .string => .ok "TEXT"
  | .blob => .ok "BLOB"
  | .number => .error "invalid column type"

/-- src/src/builder.ts `getDefaultValue`.  The `json` branch interpolates
`jsonify(value)` into a template string, i.e. quotes the JavaScript string
coercion of the encoded object (not its JSON text); the `default` branch
(the `number` type) throws. -/
def getDefaultValue : ColumnType → JVal → Except String JVal
  | .boolean, value => .ok (.num (if jsTruthy value then 1 else 0))
  | .integer, value => .ok value
  | .json, value =>
    match jsonify [] value with
    | .error e => .error e
    | .ok encoded => .ok (.str (sq ++ jsToString encoded ++ sq))
  | .string, value => .ok (.str (sq ++ jsToString value ++ sq))
  | .blob, value => .ok value
  | .number, _ => .error "invalid column type"

/-- The template fragment
`${column.defaultValue == null ? '' : 'DEFAULT ' + getDefaultValue(column.type, column.defaultValue)}`
of `buildColumnQuery` (string concatenation coerces the literal). -/
def defaultFragment (column : TableColumn) : Except String String :=
  if jsEqNull column.defaultValue then pure ""
  else do
    let lit ← getDefaultValue column.type column.defaultValue
    pure ("DEFAULT " ++ jsToString lit)

/-- src/src/builder.ts `buildColumnQuery`: the template
`` `${name} ${sqlType} ${nullable ? '' : 'NOT NULL'} ${default == null ? '' : 'DEFAULT ' + literal} ${isPrimaryKey ? 'PRIMARY KEY' : ''}` ``
(note it renders `column.name`, never `column.mappedTo`). -/
def buildColumnQuery (column : TableColumn) : Except String String := do
  let sqlType ← getSqlType column.type
  let defaultPart ← defaultFragment column
  pure (column.name ++ " " ++ sqlType ++ " " ++
    (if column.nullable then "" else "NOT NULL") ++ " " ++
    defaultPart ++ " " ++
    (if column.isPrimaryKey then "PRIMARY KEY" else ""))

/-- `str[str.length - 1] = str[str.length - 1].slice(0, -1)`: drop the final
character of the last line. -/
def chopLast : List String → List String
  | [] => []
  | [s] => [s.dropRight 1]
  | s :: rest => s :: chopLast rest

/-- src/src/builder.ts `buildTableQuery`: header line, one comma-terminated
column clause per declared column in order, trailing comma stripped, closing
parenthesis, all joined by newlines. -/
def buildTableQuery (model : Model) : Except String String := do
  let colLines ← model.columns.mapM (fun c => do pure ((← buildColumnQuery c) ++ ","))
  let lines := chopLast (("CREATE TABLE " ++ sq ++ model.tableName ++ sq ++ " (") :: colLines)
  pure (String.intercalate "\n" (lines ++ [")"]))

/-- src/src/builder.ts `buildAlterQuery`: one `ALTER TABLE … ADD COLUMN`
statement per column of `actualModel` that `existingModel` lacks (matched on
`c.name === col.name || c.name === col.mappedTo`), in declared order. -/
def buildAlterQuery (existingModel actualModel : Model) : Except String (List String) :=
  if !(existingModel.tableName == actualModel.tableName) then
    .error "table names are different"
  else
    (actualModel.columns.filter (fun col =>
        (existingModel.columns.find? (fun c =>
          c.name == col.name || some c.name == col.mappedTo)).isNone)).mapM
      (fun col => do
        pure ("ALTER TABLE " ++ sq ++ actualModel.tableName ++ sq ++ " ADD COLUMN " ++
          (← buildColumnQuery col)))

/-- One row of `PRAGMA table_info(...)` as the store reports it. -/
structure PragmaRow where
  name : String
  dflt_value : JVal
  notnull : Rat
  pk : Rat
deriving Repr

/-- src/src/builder.ts `buildModelFromData`: intersect the introspected rows
with the declared columns (matched on `t.name === datum.name || t.mappedTo
=== datum.name`), taking `type`/`mappedTo` from the declared side.  The
source's object literal omits `autoIncrement` (leaving it `undefined`,
i.e. falsy). -/
def bmfdColumn (ogModel : Model) (datum : PragmaRow) : Option TableColumn :=
  match ogModel.columns.find? (fun t =>
      t.name == datum.name || t.mappedTo == some datum.name) with
  | none => none
  | some ogCol => some
    { defaultValue := datum.dflt_value
      name := datum.name
      nullable := datum.notnull == (0 : Rat)
      type := ogCol.type
      isPrimaryKey := datum.pk == (0 : Rat)
      mappedTo := ogCol.mappedTo
      autoIncrement := false }

def buildModelFromData (ogModel : Model) (data : List PragmaRow) : Model :=
  Model.mk ogModel.tableName (data.filterMap (bmfdColumn ogModel))

/-- The schema-reconciliation step of `SqliteOrm.model` (src/src/orm.ts
lines 318-328): an empty `PRAGMA table_info` result means the table does not
exist and one `CREATE TABLE` is executed; otherwise the alter statements for
the missing columns are executed. -/
def reconcile (builtModel : Model) (info : List PragmaRow) : Except String (List String) :=
  if info.length == 0 then
    match buildTableQuery builtModel with
    | .error e => .error e
    | .ok q => .ok [q]
  else buildAlterQuery (buildModelFromData builtModel info) builtModel

/-! ## Query builders absent from src (spec-modelled)

`buildSelectQuery`, `buildInsertQuery`, `buildUpdateQuery` and
`isProvidedTypeValid` are imported by src/src/orm.ts from builder.ts but the
builder file under src stops after `buildModelFromData`; they are modelled
here from spec section 4.3/4.5. -/

structure WhereC where
  clause : String
  values : List JVal
deriving Repr

structure OrderC where
  byCol : String
  desc : Bool
deriving Repr

structure SelectQuery where
  whereC : Option WhereC
  orderC : Option OrderC
  limit : Option Rat
  offset : Option Rat
deriving Repr

/-- A built statement: SQL text plus positional parameters. -/
structure Query where
  query : String
  params : List JVal
deriving Repr

/-- Modelled from the spec: `buildSelect(schema, query)` is not under src
(only its callers are).  Spec 4.3: `SELECT * FROM <table> [WHERE
<where.text>] [ORDER BY <order.column> [DESC]] [LIMIT <n>] [OFFSET <n>]`,
params = `where.boundValues` in order. -/
def buildSelectQuery (q : SelectQuery) (tableName : String) : Query :=
  { query := "SELECT * FROM " ++ sq ++ tableName ++ sq ++
      (match q.whereC with
       | some w => " WHERE " ++ w.clause
       | none => "") ++
      (match q.orderC with
       | some o => " ORDER BY " ++ o.byCol ++ (if o.desc then " DESC" else "")
       | none => "") ++
      (match q.limit with
       | some n => " LIMIT " ++ numToString n
       | none => "") ++
      (match q.offset with
       | some n => " OFFSET " ++ numToString n
       | none => "")
    params := (q.whereC.map (fun w => w.values)).getD [] }

/-- Modelled from the spec: `buildInsert(schema, columnValues)` is not under
src.  Spec 4.3: one row, all declared columns present, column list ordered
by schema declaration order, values as positional parameters. -/
def buildInsertQuery (m : Model) (builtData : List (String × JVal)) : Query :=
  { query := "INSERT INTO " ++ sq ++ m.tableName ++ sq ++ " (" ++
      String.intercalate ", " (builtData.map (fun p => p.1)) ++ ") VALUES (" ++
      String.intercalate ", " (builtData.map (fun _ => "?")) ++ ")"
    params := builtData.map (fun p => p.2) }

/-- Modelled from the spec: `buildUpdate(schema, columnValues)` is not under
src.  Spec 4.3: updates every column by primary-key equality; requires the
primary-key value present in `columnValues`. -/
def buildUpdateQuery (m : Model) (builtData : List (String × JVal)) : Query :=
  let pkName := match m.columns.find? (fun c => c.isPrimaryKey) with
    | some c => c.mappedTo.getD c.name
    | none => ""
  { query := "UPDATE " ++ sq ++ m.tableName ++ sq ++ " SET " ++
      String.intercalate ", " (builtData.map (fun p => p.1 ++ " = ?")) ++
      " WHERE " ++ pkName ++ " = ?"
    params := builtData.map (fun p => p.2) ++ [(lookupField builtData pkName).getD .undef] }

/-- Modelled from the spec: `isProvidedTypeValid` is not under src.  Spec
4.5: `findOne` given a scalar "validates its runtime kind matches the
primary key's declared type" (a whole number for `integer`, per the declared
runtime kinds of section 4.1/8). -/
def isProvidedTypeValid (v : JVal) (col : TableColumn) : Bool :=
  match col.type with
  | .string => typeOf v == "string"
  | .number => typeOf v == "number"
  | .integer => isIntegerJs v
  | .boolean => typeOf v == "boolean"
  | .json => typeOf v == "object"
  | .blob => match v with | .u8 _ => true | _ => false

/-! ## Row mapper runtime (src/src/orm.ts) -/

/-- A row-type instance: the `_new` bookkeeping flag (set to `true` by the
`SqlTable` base-class constructor) plus its ordinary fields. -/
structure Inst where
  _new : Bool
  fields : List (String × JVal)
deriving Repr

/-- JavaScript property read (`undefined` when absent). -/
def getProp (t : Inst) (name : String) : JVal :=
  (lookupField t.fields name).getD .undef

def setFieldList : List (String × JVal) → String → JVal → List (String × JVal)
  | [], k, v => [(k, v)]
  | (k0, v0) :: fs, k, v =>
    if k0 == k then (k0, v) :: fs else (k0, v0) :: setFieldList fs k v

/-- JavaScript property assignment. -/
def setProp (t : Inst) (name : String) (v : JVal) : Inst :=
  { t with fields := setFieldList t.fields name v }

/-- The store collaborator: the statements executed so far, the last
generated row id, and the row id the store will generate next (spec section
6: `exec(sql, ...params)` and `lastInsertedId`). -/
structure Db where
  log : List Query
  lastInsertRowId : Rat
  nextRowId : Rat
deriving Repr

def Db.exec (db : Db) (q : Query) : Db :=
  { log := db.log ++ [q], lastInsertRowId := db.nextRowId, nextRowId := db.nextRowId }

/-- src/src/orm.ts `SqliteOrm.save` (lines 177-201): serialize every
declared column into `builtData` keyed by `mappedTo ?? name`; if the
instance is new, execute an insert, copy `lastInsertRowId` onto the
auto-increment primary-key field if there is one, and clear `_new`;
otherwise execute an update. -/
def save (model : Model) (table : Inst) (db : Db) : Except DBError (Inst × Db) := do
  let builtData ← model.columns.mapM (fun col => do
    let v ← serialize (getProp table col.name) col.type
    pure (col.mappedTo.getD col.name, v))
  if table._new then
    let builtQuery := buildInsertQuery model builtData
    let db := db.exec builtQuery
    let table :=
      match model.columns.find? (fun c => c.isPrimaryKey && c.autoIncrement) with
      | some c => setProp table c.name (.num db.lastInsertRowId)
      | none => table
    pure ({ table with _new := false }, db)
  else
    let builtQuery := buildUpdateQuery model builtData
    pure (table, db.exec builtQuery)

/-- The argument of `findOne`: a primitive id or a select query
(distinguished in the source by `typeof idOrQuery === 'object'`). -/
inductive IdOrQuery
  | id (v : JVal)
  | query (q : SelectQuery)
deriving Repr

/-- src/src/orm.ts `SqliteOrm.findOne` (lines 106-137).  `className` is the
constructor name (`table.name`), `ctorFields` the field values a fresh
`new table()` carries, and `dbGet` the store's prepared-query `get`. -/
def findOne (model : Model) (className : String) (ctorFields : List (String × JVal))
    (dbGet : Query → Option (List (String × JVal))) (fuel : Nat)
    (idOrQuery : IdOrQuery) : Except DBError Inst := do
  match model.columns.find? (fun c => c.isPrimaryKey) with
  | none => .error (.invalidTable (model.tableName ++ " does not have primary key"))
  | some col => do
    let query ←
      match idOrQuery with
      | .id v =>
        if !(isProvidedTypeValid v col) then
          .error (.invalidData (model.tableName ++ "." ++ col.name ++ " has a different type"))
        else do
          let sv ← serialize v col.type
          pure (buildSelectQuery
            { whereC := some { clause := (col.mappedTo.getD col.name) ++ " = ?", values := [sv] }
              orderC := none, limit := some 1, offset := none } model.tableName)
      | .query q => pure (buildSelectQuery { q with limit := some 1 } model.tableName)
    match dbGet query with
    | none =>
      match idOrQuery with
      | .query _ => .error (.notFound ("query did not match any items in " ++ className))
      | .id v => .error (.notFound ("row with " ++ col.name ++ " = " ++ jsToString v ++
          " was not found in table " ++ className))
    | some found =>
      model.columns.foldlM
        (fun parsed c => do
          let v ← deseralize fuel ((lookupField found (c.mappedTo.getD c.name)).getD .undef) c.type
          pure (setProp parsed c.name v))
        (Inst.mk true ctorFields)

/-- src/src/orm.ts `SqliteOrm.findOneOptional` (lines 139-148): `findOne`
with `DBNotFound` caught and replaced by `new table()`; every other error is
rethrown. -/
def findOneOptional (model : Model) (className : String) (ctorFields : List (String × JVal))
    (dbGet : Query → Option (List (String × JVal))) (fuel : Nat)
    (idOrQuery : IdOrQuery) : Except DBError Inst :=
  match findOne model className ctorFields dbGet fuel idOrQuery with
  | .ok t => .ok t
  | .error (.notFound _) => .ok (Inst.mk true ctorFields)
  | .error e => .error e

/-! ## Column registration (src/src/orm.ts `column` / `createTempColumn`) -/

/-- `Partial<TableColumn>`: only the fields the decorator call supplies are
present. -/
structure PartialColumn where
  type : Option ColumnType
  name : Option String
  mappedTo : Option String
  nullable : Option Bool
  defaultValue : Option JVal
  isPrimaryKey : Option Bool
  autoIncrement : Option Bool
deriving Repr

/-- `Object.assign(existing, data)`: fields present in `data` overwrite. -/
def mergeColumn (c : TableColumn) (d : PartialColumn) : TableColumn :=
  { type := d.type.getD c.type
    name := d.name.getD c.name
    mappedTo := match d.mappedTo with | some s => some s | none => c.mappedTo
    nullable := d.nullable.getD c.nullable
    defaultValue := d.defaultValue.getD c.defaultValue
    isPrimaryKey := d.isPrimaryKey.getD c.isPrimaryKey
    autoIncrement := d.autoIncrement.getD c.autoIncrement }

/-- Replace the first element satisfying `p` (the `findIndex` + in-place
mutation in `createTempColumn`). -/
def updateFirst (p : TableColumn → Bool) (f : TableColumn → TableColumn) :
    List TableColumn → List TableColumn
  | [] => []
  | c :: cs => if p c then f c :: cs else c :: updateFirst p f cs

/-- `typeof model[propertyKey] == 'object' ? 'json' : typeof model[propertyKey]`
(guarded so that only string/boolean/number/object values reach it). -/
def inferColumnType (v : JVal) : ColumnType :=
  if typeOf v == "object" then .json
  else
    match v with
    | .bool _ => .boolean
    | .num _ => .number
    | .str _ => .string
    | _ => .string  -- unreachable: callers rule out null/undefined first

/-- src/src/orm.ts `SqliteOrm.createTempColumn` (lines 367-399).
`modelDefaults` are the fields of the freshly constructed instance the
decorator receives. -/
def createTempColumn (d : PartialColumn) (modelDefaults : List (String × JVal))
    (ctorName propertyKey : String) (temp : List TableColumn) :
    Except DBError (List TableColumn) :=
  if (temp.find? (fun i => i.name == propertyKey)).isSome then
    .ok (updateFirst (fun i => i.name == propertyKey) (fun c => mergeColumn c d) temp)
  else
    let v := (lookupField modelDefaults propertyKey).getD .undef
    if !(typeOf v == "string") && !(typeOf v == "boolean") && !(typeOf v == "number") &&
        !(typeOf v == "object") && !(jsEqNull v) then
      .error (.invalidTable (ctorName ++ "." ++ propertyKey ++ " has an invalid type, (" ++
        typeOf v ++ " is not valid)"))
    else
      match (match d.type with
             | some provided => Except.ok provided
             | none =>
               if jsEqNull v then
                 Except.error (DBError.invalidTable (ctorName ++ "." ++ propertyKey ++
                   ": type must be specified for a column with null value"))
               else Except.ok (inferColumnType v)) with
      | .error e => .error e
      | .ok resolvedType =>
        let pk :=
          match d.isPrimaryKey with
          | none => (temp.find? (fun i => i.isPrimaryKey)).isNone && propertyKey == "id"
          | some b => b
        let nb :=
          match d.nullable with
          -- left `undefined` (falsy) when the default value is non-null
          | none => jsEqNull v
          | some b => b
        .ok (temp ++ [{ type := resolvedType
                        name := propertyKey
                        mappedTo := d.mappedTo
                        nullable := nb
                        defaultValue := v
                        isPrimaryKey := pk
                        autoIncrement := d.autoIncrement.getD false }])

/-- src/src/orm.ts `SqliteOrm.column` (lines 217-222): the decorator body.
A descriptor marked primary key while `tempModelData` already holds one
raises `DBInvalidTable` (the message interpolates the found descriptor
object, which stringifies to `[object Object]`); otherwise the descriptor is
recorded via `createTempColumn`.  No SQL statement is involved: the store is
only reached later, inside `model()`. -/
def columnDec (d : PartialColumn) (modelDefaults : List (String × JVal))
    (ctorName propertyKey : String) (temp : List TableColumn) :
    Except DBError (List TableColumn) :=
  if d.isPrimaryKey == some true && (temp.find? (fun i => i.isPrimaryKey)).isSome then
    .error (.invalidTable (ctorName ++
      ": table cannot have two primary keys, existing key ([object Object])"))
  else createTempColumn d modelDefaults ctorName propertyKey temp

/-! ## Schema snapshot loading (the repository's model-file module:
`readVersion0` / `read`) -/

/-- `readVersion0(data)`: wrap a legacy bare table map as version-1 content. -/
def readVersion0 (data : JVal) : JVal :=
  .obj [("version", .num 1), ("models", data)]

/-- The version dispatch at the end of `read`: `'version' in data &&
data.version === 1` returns `data.models`, anything else throws the
unknown-version error. -/
def readSnapshotVersioned (dbPath : String) (data : JVal) : Except String JVal :=
  let versionIs1 :=
    match data with
    | .obj fs => match lookupField fs "version" with
      | some (.num q) => q == 1
      | _ => false
    | _ => false
  if versionIs1 then
    .ok ((match data with | .obj fs => lookupField fs "models" | _ => none).getD .undef)
  else .error ("unknown version for models " ++ dbPath ++ ".model.json")

/-- The model-file module's `read`, applied to the already-parsed snapshot
JSON (file access and the JSON.parse failure fallback to `{}` are the I/O
collaborator's concern).  `'version' in data` upgrades an unversioned value
through `readVersion0`; the operator itself raises a `TypeError` on
primitives. -/
def readSnapshot (dbPath : String) (data : JVal) : Except String JVal :=
  match data with
  | .obj fields =>
    let upgraded := if (lookupField fields "version").isSome then JVal.obj fields
      else readVersion0 (.obj fields)
    readSnapshotVersioned dbPath upgraded
  | .arr xs => readSnapshotVersioned dbPath (readVersion0 (.arr xs))
  | _ => .error "TypeError: cannot use the in operator on a primitive"

/-! ## Specification-side column-clause rendering (for the refinement claim
about `buildCreateTable`) -/

/-- The specification's `renderColumnType` (section 4.2): `boolean|integer →
INTEGER`, `string|json → TEXT`, `blob → BLOB`; the spec gives the `number`
column type no rendering, matching the builder's thrown error. -/
def specRenderColumnType : ColumnType → Except String String
  | .boolean => .ok "INTEGER"
  | .integer => .ok "INTEGER"
  | .string => .ok "TEXT"
  | .json => .ok "TEXT"
  | .blob => .ok "BLOB"
  | .number => .error "invalid column type"

/-- The default literal exactly as spec section 4.3 words it: booleans to
0/1, json to the codec-encoded value's *stringified* (JSON) text in quotes,
strings quoted, numeric and blob values passed through. -/
def specDefaultLiteral : ColumnType → JVal → Except String String
  | .boolean, value => .ok (if jsTruthy value then "1" else "0")
  | .json, value =>
    match jsonify [] value with
    | .error e => .error e
    | .ok encoded => .ok (sq ++ jsonStringify encoded ++ sq)
  | .string, value => .ok (sq ++ jsToString value ++ sq)
  | .integer, value => .ok (jsToString value)
  | .blob, value => .ok (jsToString value)
  | .number, _ => .error "invalid column type"

/-- The `[DEFAULT <literal>]` piece as the specification words it. -/
def specDefaultFragment (column : TableColumn) : Except String String :=
  if jsEqNull column.defaultValue then pure ""
  else do pure ("DEFAULT " ++ (← specDefaultLiteral column.type column.defaultValue))

/-- The per-column clause as the specification describes it:
`<physicalName> <SQLTYPE> [NOT NULL] [DEFAULT <literal>] [PRIMARY KEY]`,
with `physicalName = mappedTo ?? name` (spec 4.2 `resolveColumnName`) and the
optional pieces joined in the source template's spacing. -/
def specColumnClause (column : TableColumn) : Except String String := do
  let sqlType ← specRenderColumnType column.type
  let defaultPart ← specDefaultFragment column
  pure (String.intercalate " "
    [column.mappedTo.getD column.name, sqlType,
     if column.nullable then "" else "NOT NULL",
     defaultPart,
     if column.isPrimaryKey then "PRIMARY KEY" else ""])

/-- The default literal the builder actually produces for a `json` column:
the quoted JavaScript string coercion of the codec-encoded value (an object
default renders as `[object Object]`), not its JSON text. -/
def specDefaultLiteralAmended : ColumnType → JVal → Except String String
  | .boolean, value => .ok (if jsTruthy value then "1" else "0")
  | .json, value =>
    match jsonify [] value with
    | .error e => .error e
    | .ok encoded => .ok (sq ++ jsToString encoded ++ sq)
  | .string, value => .ok (sq ++ jsToString value ++ sq)
  | .integer, value => .ok (jsToString value)
  | .blob, value => .ok (jsToString value)
  | .number, _ => .error "invalid column type"

/-- The `[DEFAULT <literal>]` piece with the amended json rendering. -/
def specDefaultFragmentAmended (column : TableColumn) : Except String String :=
  if jsEqNull column.defaultValue then pure ""
  else do pure ("DEFAULT " ++ (← specDefaultLiteralAmended column.type column.defaultValue))

/-- The column clause with the two amendments the builder forces: the
physical name is always the declared `name` (`mappedTo` is ignored by the
renderer), and a json default is the quoted string coercion of the encoded
value. -/
def specColumnClauseAmended (column : TableColumn) : Except String String := do
  let sqlType ← specRenderColumnType column.type
  let defaultPart ← specDefaultFragmentAmended column
  pure (String.intercalate " "
    [column.name, sqlType,
     if column.nullable then "" else "NOT NULL",
     defaultPart,
     if column.isPrimaryKey then "PRIMARY KEY" else ""])

/-! ## Concrete fixtures

`Foo` is the row type of spec scenarios A-C: `class Foo extends SqlTable`
with a string field `foo = 'bar'`, so registration gives it the implicit
integer auto-increment primary key `id` (default `-1` from `SqlTable`) and a
string column `foo`. -/

def fooIdColumn : TableColumn :=
  { type := .integer
    name := "id"
    mappedTo := none
    nullable := false
    defaultValue := .num (-1)
    isPrimaryKey := true
    autoIncrement := true }

def fooStringColumn : TableColumn :=
  { type := .string
    name := "foo"
    mappedTo := none
    nullable := false
    defaultValue := .str "bar"
    isPrimaryKey := false
    autoIncrement := false }

def fooModel : Model := { tableName := "Foo", columns := [fooIdColumn, fooStringColumn] }

/-- `new Foo()`: `_new = true`, `id = -1`, `foo = 'bar'`. -/
def fooFresh : Inst := { _new := true, fields := [("id", .num (-1)), ("foo", .str "bar")] }

/-- A store with nothing executed yet. -/
def emptyDb : Db := { log := [], lastInsertRowId := 0, nextRowId := 7 }

/-- An introspected live table that already has the `id` column only. -/
def idPragmaRow : PragmaRow := { name := "id", dflt_value := .null, notnull := 1, pk := 1 }

/-- The column of the refinement counterexample: a json column whose
declared name differs from its physical (`mappedTo`) name and which has an
object default value. -/
def mappedJsonColumn : TableColumn :=
  { type := .json
    name := "a"
    mappedTo := some "b"
    nullable := true
    defaultValue := .obj [("x", .num 1)]
    isPrimaryKey := false
    autoIncrement := false }

/-! # Theorems -/

/-- `JVal` has no constructor for the three unserializable runtime kinds, so
`isSerializabe` holds everywhere on the embedded domain. -/
theorem isSerializabe_eq_true (v : JVal) : isSerializabe v = true := by
  cases v <;> rfl

/-- Sanity check relating the unfolded `writeEntries` to `jsonify` of the
entry array, exactly as the source writes it. -/
theorem writeEntries_eq_jsonify_entries (es : List (JVal × JVal)) :
    writeEntries es = writeList (es.map (fun e => JVal.arr [e.1, e.2])) := by
  induction es with
  | nil => rfl
  | cons e es ih =>
    obtain ⟨k, v⟩ := e
    simp only [List.map, writeEntries, writeList, writeValue, isSerializabe_eq_true,
      if_true]
    cases writeValue k <;> cases writeValue v <;> simp [ih]

/-- C1: the claim says a whole number serializes on an `integer` column and
round-trips; the source guard `typeof data !== 'number' ||
Number.isInteger(data)` instead raises `DBInvalidData` for every whole
number (the missing negation contradicts the error message itself), so
`serialize(5, 'integer')` fails and the round trip never starts. -/
theorem serialize_integer_rejects_whole_number :
    serialize (.num 5) .integer =
      .error (.invalidData "Cannot store a non integer type on an integer column") := rfl

/-- C10: a `null` (or `undefined`) field value passes through both
`serialize` and `deseralize` as `null` for every column type, before any
runtime-kind check. -/
theorem serialize_deseralize_null_passthrough (t : ColumnType) (fuel : Nat) :
    serialize .null t = .ok .null ∧ serialize .undef t = .ok .null ∧
    deseralize fuel .null t = .ok .null ∧ deseralize fuel .undef t = .ok .null := by
  refine ⟨?_, ?_, ?_, ?_⟩ <;> simp [serialize, deseralize, jsEqNull]

/-- C4: encoding the map `{"a" → 1}` does yield the tagged form
`{type: 'Map', data: [["a", 1]]}`, but decoding that form computes
`new Map(dejsonify([val.data]))` — the extra array around `val.data` turns
the result into a one-entry map whose key is the entry array `["a", 1]` and
whose value is `undefined`, not a map equal to the original. -/
theorem map_codec_round_trip_broken :
    writeValue (.map [(.str "a", .num 1)]) =
      .ok (.obj [("data", .arr [.arr [.str "a", .num 1]]), ("type", .str "Map")]) ∧
    readValueF 10 (.obj [("data", .arr [.arr [.str "a", .num 1]]), ("type", .str "Map")]) =
      .ok (.map [(.arr [.str "a", .num 1], .undef)]) ∧
    JVal.map [(.arr [.str "a", .num 1], .undef)] ≠ JVal.map [(.str "a", .num 1)] := by
  refine ⟨rfl, rfl, ?_⟩
  simp

/-- C5: the byte-buffer branches are unimplemented stubs: encoding a
`Uint8Array` yields the tag `U8IntArray` (not `ByteArray`) with the literal
placeholder string `'base64'` as data, and decoding that tagged value
returns an empty plain array, so the round trip is not the identity. -/
theorem byte_buffer_codec_stubbed :
    writeValue (.u8 [1, 2, 3]) =
      .ok (.obj [("data", .str "base64"), ("type", .str "U8IntArray")]) ∧
    readValueF 10 (.obj [("data", .str "base64"), ("type", .str "U8IntArray")]) =
      .ok (.arr []) :=
  ⟨rfl, rfl⟩

/-- C2: the claim says `save` on a fresh instance inserts a row; in fact
`save(new Foo())` never reaches the insert, because building `builtData`
serializes the auto-increment primary key `id = -1` on its `integer` column
and `serialize` raises `DBInvalidData` on every whole number. -/
theorem save_new_foo_raises_invalid_data :
    save fooModel fooFresh emptyDb =
      .error (.invalidData "Cannot store a non integer type on an integer column") := rfl

/-- C3: the claim says `findOne(Foo, 999)` with no matching row raises
`DBNotFound` and `findOneOptional` converts exactly that into a fresh
instance; in fact `findOne` raises `DBInvalidData` before the store is even
consulted (serializing the id `999` for the `WHERE id = ?` parameter trips
the broken `integer` guard), and `findOneOptional` propagates that error
instead of returning a fresh instance. -/
theorem findOne_empty_table_raises_invalid_data :
    findOne fooModel "Foo" fooFresh.fields (fun _ => none) 10 (.id (.num 999)) =
      .error (.invalidData "Cannot store a non integer type on an integer column") ∧
    findOneOptional fooModel "Foo" fooFresh.fields (fun _ => none) 10 (.id (.num 999)) =
      .error (.invalidData "Cannot store a non integer type on an integer column") :=
  ⟨rfl, rfl⟩

/-- C9: loading the persisted schema snapshot accepts a legacy bare map
(no `version` key) and returns it as the version-1 models, returns the
`models` field of a `{version: 1, models}` object as-is, and fails with the
unknown-version error whenever a `version` key is present with any value
other than the number 1. -/
theorem readSnapshot_version_dispatch (dbPath : String) (fields : List (String × JVal)) :
    (lookupField fields "version" = none →
      readSnapshot dbPath (.obj fields) = .ok (.obj fields)) ∧
    (∀ mv, lookupField fields "version" = some (.num 1) →
      lookupField fields "models" = some mv →
      readSnapshot dbPath (.obj fields) = .ok mv) ∧
    (∀ v, lookupField fields "version" = some v → v ≠ .num 1 →
      readSnapshot dbPath (.obj fields) =
        .error ("unknown version for models " ++ dbPath ++ ".model.json")) := by
  refine ⟨?_, ?_, ?_⟩
  · intro h
    simp [readSnapshot, readSnapshotVersioned, readVersion0, lookupField, h]
  · intro mv h1 h2
    simp [readSnapshot, readSnapshotVersioned, h1, h2]
  · intro v h1 hv
    cases v with
    | num q =>
      have hq : ¬(q == (1 : Rat)) = true := by
        intro hc
        exact hv (congrArg JVal.num (beq_iff_eq.mp hc))
      simp [readSnapshot, readSnapshotVersioned, h1, hq]
    | null => simp [readSnapshot, readSnapshotVersioned, h1]
    | undef => simp [readSnapshot, readSnapshotVersioned, h1]
    | bool b => simp [readSnapshot, readSnapshotVersioned, h1]
    | str s => simp [readSnapshot, readSnapshotVersioned, h1]
    | arr xs => simp [readSnapshot, readSnapshotVersioned, h1]
    | obj fs => simp [readSnapshot, readSnapshotVersioned, h1]
    | map es => simp [readSnapshot, readSnapshotVersioned, h1]
    | u8 bs => simp [readSnapshot, readSnapshotVersioned, h1]

/-- Witness for C9: the three branches at concrete snapshots. -/
theorem readSnapshot_version_dispatch_witness :
    readSnapshot "db" (.obj [("t", .str "x")]) = .ok (.obj [("t", .str "x")]) ∧
    readSnapshot "db" (.obj [("version", .num 1), ("models", .str "m")]) = .ok (.str "m") ∧
    readSnapshot "db" (.obj [("version", .num 2)]) =
      .error ("unknown version for models " ++ "db" ++ ".model.json") :=
  ⟨(readSnapshot_version_dispatch "db" [("t", .str "x")]).1 rfl,
   (readSnapshot_version_dispatch "db" [("version", .num 1), ("models", .str "m")]).2.1
     (.str "m") rfl rfl,
   (readSnapshot_version_dispatch "db" [("version", .num 2)]).2.2 (.num 2) rfl
     (by simp)⟩

/-- Replacing one element of a list adds at most one to any `countP`. -/
theorem countP_updateFirst_le_succ (q p : TableColumn → Bool) (f : TableColumn → TableColumn)
    (l : List TableColumn) :
    (updateFirst p f l).countP q ≤ l.countP q + 1 := by
  induction l with
  | nil => simp [updateFirst]
  | cons c cs ih =>
    by_cases hp : p c = true
    · simp only [updateFirst, hp, if_true, List.countP_cons]
      split_ifs <;> omega
    · simp only [updateFirst, hp, if_false, Bool.false_eq_true, List.countP_cons]
      omega

/-- Replacing one element by a function that never turns the counted
predicate on cannot increase `countP`. -/
theorem countP_updateFirst_mono (q p : TableColumn → Bool) (f : TableColumn → TableColumn)
    (h : ∀ c, q (f c) = true → q c = true) (l : List TableColumn) :
    (updateFirst p f l).countP q ≤ l.countP q := by
  induction l with
  | nil => simp [updateFirst]
  | cons c cs ih =>
    by_cases hp : p c = true
    · simp only [updateFirst, hp, if_true, List.countP_cons]
      by_cases hqf : q (f c) = true
      · simp [hqf, h c hqf]
      · simp only [hqf, Bool.false_eq_true, if_false]
        split_ifs <;> omega
    · simp only [updateFirst, hp, if_false, Bool.false_eq_true, List.countP_cons]
      omega

/-- An absent `find?` result means the count of the predicate is zero. -/
theorem countP_eq_zero_of_find?_isSome_eq_false (q : TableColumn → Bool)
    (l : List TableColumn) (h : (l.find? q).isSome = false) :
    l.countP q = 0 := by
  rw [List.countP_eq_zero]
  intro c hc hqc
  have : (l.find? q).isSome = true := List.find?_isSome.mpr ⟨c, hc, hqc⟩
  rw [h] at this
  exact Bool.false_ne_true this

/-- C8: a column descriptor marked `isPrimaryKey` registered while the
pending column list already holds a primary key makes the `column` decorator
raise `DBInvalidTable` (the decorator touches no SQL: the store is only
reached later, in `model()`); and a successful `column` step keeps the
pending list at no more than one primary-key column. -/
theorem column_second_primary_key (d : PartialColumn) (defaults : List (String × JVal))
    (cn pk : String) (temp : List TableColumn) :
    (d.isPrimaryKey = some true → (temp.find? (fun i => i.isPrimaryKey)).isSome = true →
      columnDec d defaults cn pk temp = .error (.invalidTable (cn ++
        ": table cannot have two primary keys, existing key ([object Object])"))) ∧
    (∀ temp', columnDec d defaults cn pk temp = .ok temp' →
      temp.countP (fun i => i.isPrimaryKey) ≤ 1 →
      temp'.countP (fun i => i.isPrimaryKey) ≤ 1) := by
  constructor
  · intro h1 h2
    simp [columnDec, h1, h2]
  · intro temp' hok hle
    by_cases hguard :
        (d.isPrimaryKey == some true && (temp.find? (fun i => i.isPrimaryKey)).isSome) = true
    · simp [columnDec, hguard] at hok
    · simp only [columnDec, hguard, Bool.false_eq_true, if_false] at hok
      by_cases hidx : ((temp.find? (fun i => i.name == pk)).isSome) = true
      · -- merge path: the matching pending column is updated in place
        simp only [createTempColumn, hidx, if_true, Except.ok.injEq] at hok
        subst hok
        cases hd : d.isPrimaryKey with
        | some b =>
          cases b with
          | true =>
            have hfind : (temp.find? (fun i => i.isPrimaryKey)).isSome = false := by
              cases hf : (temp.find? (fun i => i.isPrimaryKey)).isSome with
              | false => rfl
              | true => exact absurd (by simp [hd, hf]) hguard
            have h0 := countP_eq_zero_of_find?_isSome_eq_false _ _ hfind
            have := countP_updateFirst_le_succ (fun i => i.isPrimaryKey)
              (fun i => i.name == pk) (fun c => mergeColumn c d) temp
            omega
          | false =>
            have := countP_updateFirst_mono (fun i => i.isPrimaryKey)
              (fun i => i.name == pk) (fun c => mergeColumn c d)
              (by intro c hc; simp [mergeColumn, hd] at hc) temp
            omega
        | none =>
          have := countP_updateFirst_mono (fun i => i.isPrimaryKey)
            (fun i => i.name == pk) (fun c => mergeColumn c d)
            (by intro c hc; simpa [mergeColumn, hd] using hc) temp
          omega
      · -- push path: a fresh column is appended
        simp only [createTempColumn, hidx, Bool.false_eq_true, if_false] at hok
        split at hok
        · exact absurd hok (by simp)
        · split at hok
          · exact absurd hok (by simp)
          · simp only [Except.ok.injEq] at hok
            subst hok
            rw [List.countP_append]
            cases hd : d.isPrimaryKey with
            | some b =>
              cases b with
              | true =>
                have hfind : (temp.find? (fun i => i.isPrimaryKey)).isSome = false := by
                  cases hf : (temp.find? (fun i => i.isPrimaryKey)).isSome with
                  | false => rfl
                  | true => exact absurd (by simp [hd, hf]) hguard
                have h0 := countP_eq_zero_of_find?_isSome_eq_false _ _ hfind
                simp [hd, List.countP_cons, h0]
              | false =>
                simp only [hd, List.countP_cons]
                simp
                omega
            | none =>
              by_cases hinf :
                  ((temp.find? (fun i => i.isPrimaryKey)).isNone && pk == "id") = true
              · have hfind : (temp.find? (fun i => i.isPrimaryKey)).isSome = false := by
                  have := (Bool.and_eq_true _ _).mp hinf
                  simpa [Option.isNone_iff_eq_none, Option.isSome_iff_exists] using this.1
                have h0 := countP_eq_zero_of_find?_isSome_eq_false _ _ hfind
                simp [hd, hinf, List.countP_cons, h0]
              · simp only [hd, hinf, List.countP_cons]
                simp [hinf]
                omega

/-- Witness for C8: registering a second primary-key descriptor next to
`Foo`'s primary key raises, and one successful registration step keeps the
primary-key count at one at most. -/
theorem column_second_primary_key_witness :
    columnDec
      { type := none
        name := none
        mappedTo := none
        nullable := none
        defaultValue := none
        isPrimaryKey := some true
        autoIncrement := none } [] "Bar" "other" [fooIdColumn] =
      .error (.invalidTable ("Bar" ++
        ": table cannot have two primary keys, existing key ([object Object])")) ∧
    ([ { type := ColumnType.string
         name := "x"
         mappedTo := none
         nullable := false
         defaultValue := JVal.str "hello"
         isPrimaryKey := false
         autoIncrement := false } ] : List TableColumn).countP (fun i => i.isPrimaryKey) ≤ 1 :=
  ⟨(column_second_primary_key
      { type := none
        name := none
        mappedTo := none
        nullable := none
        defaultValue := none
        isPrimaryKey := some true
        autoIncrement := none } [] "Bar" "other" [fooIdColumn]).1 rfl rfl,
   (column_second_primary_key
      { type := some ColumnType.string
        name := none
        mappedTo := none
        nullable := none
        defaultValue := none
        isPrimaryKey := none
        autoIncrement := none } [("x", JVal.str "hello")] "Bar" "x" []).2
     [ { type := ColumnType.string
         name := "x"
         mappedTo := none
         nullable := false
         defaultValue := JVal.str "hello"
         isPrimaryKey := false
         autoIncrement := false } ] rfl (by decide)⟩

/-- `==` is symmetric for a lawful `BEq`. -/
theorem beqComm {α : Type} [BEq α] [LawfulBEq α] (a b : α) : (a == b) = (b == a) := by
  by_cases h : a = b
  · subst h
    rfl
  · rw [beq_eq_false_iff_ne.mpr h, beq_eq_false_iff_ne.mpr (Ne.symm h)]

/-- `find?` over a cons whose head satisfies the predicate. -/
theorem find?_cons_true {α : Type} (p : α → Bool) (a : α) (l : List α) (h : p a = true) :
    List.find? p (a :: l) = some a :=
  List.find?_cons_of_pos _ h

/-- `find?` over a cons whose head fails the predicate. -/
theorem find?_cons_false {α : Type} (p : α → Bool) (a : α) (l : List α) (h : p a = false) :
    List.find? p (a :: l) = List.find? p l :=
  List.find?_cons_of_neg _ (fun hc => Bool.false_ne_true (h ▸ hc))

/-- Core of the reconciliation claim: a declared column has no counterpart
in the intersected live schema `buildModelFromData` produces exactly when no
introspected live column is named either its declared name or its `mappedTo`
name. -/
theorem find?_built_isNone_eq (m : Model) (info : List PragmaRow) (col : TableColumn)
    (hcol : col ∈ m.columns) :
    ((info.filterMap (bmfdColumn m)).find? (fun c =>
        c.name == col.name || some c.name == col.mappedTo)).isNone
      = info.all (fun d => !(d.name == col.name || col.mappedTo == some d.name)) := by
  induction info with
  | nil => rfl
  | cons d ds ih =>
    cases hfind : m.columns.find? (fun t => t.name == d.name || t.mappedTo == some d.name) with
    | none =>
      have hbm : bmfdColumn m d = none := by simp [bmfdColumn, hfind]
      rw [List.filterMap_cons_none hbm]
      have hno := List.find?_eq_none.mp hfind col hcol
      have h1 : (d.name == col.name) = false := by
        cases h : (d.name == col.name) with
        | false => rfl
        | true =>
          have heq : d.name = col.name := beq_iff_eq.mp h
          exact absurd (show (col.name == d.name || col.mappedTo == some d.name) = true by
            simp [heq]) hno
      have h2 : (col.mappedTo == some d.name) = false := by
        cases h : (col.mappedTo == some d.name) with
        | false => rfl
        | true =>
          exact absurd (show (col.name == d.name || col.mappedTo == some d.name) = true by
            simp [h]) hno
      simp only [List.all_cons, h1, h2, Bool.or_self, Bool.not_false, Bool.true_and]
      exact ih
    | some ogCol =>
      obtain ⟨c, hc, hcn⟩ : ∃ c, bmfdColumn m d = some c ∧ c.name = d.name :=
        ⟨{ type := ogCol.type
           name := d.name
           mappedTo := ogCol.mappedTo
           nullable := d.notnull == (0 : Rat)
           defaultValue := d.dflt_value
           isPrimaryKey := d.pk == (0 : Rat)
           autoIncrement := false },
         by simp [bmfdColumn, hfind], rfl⟩
      rw [List.filterMap_cons_some hc]
      cases hp : (c.name == col.name || some c.name == col.mappedTo) with
      | true =>
        rw [find?_cons_true (fun x => x.name == col.name || some x.name == col.mappedTo) c _ hp]
        have hdm : (d.name == col.name || col.mappedTo == some d.name) = true := by
          rw [← hcn]
          rcases Bool.or_eq_true_iff.mp hp with hl | hr
          · rw [hl]
            rfl
          · rw [beqComm col.mappedTo (some c.name), hr]
            simp
        simp only [Option.isNone_some, List.all_cons, hdm, Bool.not_true, Bool.false_and]
      | false =>
        rw [find?_cons_false (fun x => x.name == col.name || some x.name == col.mappedTo) c _ hp]
        obtain ⟨h1, h2⟩ := Bool.or_eq_false_iff.mp hp
        have hdm : (d.name == col.name || col.mappedTo == some d.name) = false := by
          rw [← hcn, h1, beqComm col.mappedTo (some c.name), h2]
          rfl
        simp only [List.all_cons, hdm, Bool.not_false, Bool.true_and]
        exact ih

/-- C6: when introspection reports no live columns, reconciliation executes
exactly the one `CREATE TABLE` statement; otherwise it executes exactly one
`ALTER TABLE … ADD COLUMN` statement per declared column with no live
counterpart (no live column named its declared or mapped name), in declared
column order, and nothing else — in particular no statement dropping or
altering a live column. -/
theorem reconcile_create_and_add_missing (m : Model) (info : List PragmaRow) :
    (∀ q, info = [] → buildTableQuery m = .ok q → reconcile m info = .ok [q]) ∧
    (info ≠ [] → reconcile m info =
      (m.columns.filter (fun col =>
          info.all (fun d => !(d.name == col.name || col.mappedTo == some d.name)))).mapM
        (fun col => do
          pure ("ALTER TABLE " ++ sq ++ m.tableName ++ sq ++ " ADD COLUMN " ++
            (← buildColumnQuery col)))) := by
  constructor
  · intro q hinfo hq
    subst hinfo
    simp [reconcile, hq]
  · intro hne
    have hlen : (info.length == 0) = false := by
      cases info with
      | nil => exact absurd rfl hne
      | cons _ _ => rfl
    simp only [reconcile, hlen, Bool.false_eq_true, if_false]
    unfold buildAlterQuery
    have htn : ((buildModelFromData m info).tableName == m.tableName) = true := by
      simp [buildModelFromData]
    rw [htn]
    simp only [Bool.not_true, Bool.false_eq_true, if_false]
    congr 1
    apply List.filter_congr
    intro col hcol
    exact find?_built_isNone_eq m info col hcol

/-- Witness for C6: creating `Foo` from scratch emits its one `CREATE
TABLE`, and reconciling against a live table that already has `id` emits the
add-column statements for exactly the missing declared columns. -/
theorem reconcile_create_and_add_missing_witness :
    reconcile fooModel [] = .ok ["CREATE TABLE " ++ sq ++ "Foo" ++ sq ++
      " (\nid INTEGER NOT NULL DEFAULT -1 PRIMARY KEY,\nfoo TEXT NOT NULL DEFAULT " ++
      sq ++ "bar" ++ sq ++ " \n)"] ∧
    reconcile fooModel [idPragmaRow] =
      (fooModel.columns.filter (fun col =>
          [idPragmaRow].all (fun d => !(d.name == col.name || col.mappedTo == some d.name)))).mapM
        (fun col => do
          pure ("ALTER TABLE " ++ sq ++ fooModel.tableName ++ sq ++ " ADD COLUMN " ++
            (← buildColumnQuery col))) :=
  ⟨(reconcile_create_and_add_missing fooModel []).1 _ rfl rfl,
   (reconcile_create_and_add_missing fooModel [idPragmaRow]).2 (by simp)⟩

/-- The builder's type rendering coincides with the specification's
`renderColumnType`. -/
theorem getSqlType_eq_specRender : getSqlType = specRenderColumnType :=
  funext (fun t => by cases t <;> rfl)

/-- The `DEFAULT` fragment built from `getDefaultValue` coincides with the
amended specification fragment for every column. -/
theorem defaultFragment_eq (column : TableColumn) :
    defaultFragment column = specDefaultFragmentAmended column := by
  unfold defaultFragment specDefaultFragmentAmended
  by_cases hn : jsEqNull column.defaultValue = true
  · simp [hn]
  · simp only [hn, Bool.false_eq_true, if_false]
    cases hty : column.type with
    | boolean =>
      by_cases h : jsTruthy column.defaultValue = true <;>
        · simp [getDefaultValue, specDefaultLiteralAmended, h, jsToString, numToString]
          decide
    | json =>
      cases hj : jsonify [] column.defaultValue <;>
        simp [getDefaultValue, specDefaultLiteralAmended, hj, jsToString]
    | string => rfl
    | integer => rfl
    | blob => rfl
    | number => rfl

/-- Joining the five clause pieces with single spaces is the source
template's concatenation. -/
theorem intercalate_five (a b c d e : String) :
    String.intercalate " " [a, b, c, d, e] =
      a ++ " " ++ b ++ " " ++ c ++ " " ++ d ++ " " ++ e := rfl

/-- C7 counterexample: on a json column whose declared name `a` is mapped to
the physical name `b` and whose default is the object `{x: 1}`, the builder
renders `a TEXT  DEFAULT '[object Object]' ` while the clause the claim
describes is `b TEXT  DEFAULT '{"x":1}' `. -/
theorem buildColumnQuery_ne_specColumnClause :
    buildColumnQuery mappedJsonColumn ≠ specColumnClause mappedJsonColumn := by
  intro h
  have h1 : buildColumnQuery mappedJsonColumn =
      .ok ("a TEXT  DEFAULT " ++ sq ++ "[object Object]" ++ sq ++ " ") := rfl
  have h2 : specColumnClause mappedJsonColumn =
      .ok ("b TEXT  DEFAULT " ++ sq ++ "\x7b\"x\":1\x7d" ++ sq ++ " ") := rfl
  rw [h1, h2] at h
  have h3 := Except.ok.inj h
  have h4 : ("a TEXT  DEFAULT " ++ sq ++ "[object Object]" ++ sq ++ " ").data =
      ("b TEXT  DEFAULT " ++ sq ++ "\x7b\"x\":1\x7d" ++ sq ++ " ").data := by rw [h3]
  simp at h4

/-- C7 amended: for every column, the generated clause is
`<name> <SQLTYPE> [NOT NULL] [DEFAULT <literal>] [PRIMARY KEY]` where the
physical name is always the declared `name` (`mappedTo` is ignored by the
renderer) and a json default literal is the quoted JavaScript string
coercion of the codec-encoded default (\x27[object Object]\x27 for an object), not
its JSON text; the other literal renderings are as the claim states. -/
theorem buildColumnQuery_eq_amended (col : TableColumn) :
    buildColumnQuery col = specColumnClauseAmended col := by
  unfold buildColumnQuery specColumnClauseAmended
  rw [getSqlType_eq_specRender, defaultFragment_eq]
  simp only [intercalate_five]

end DenoSqliteOrm
